import Mathlib

/-!
# Verification of carebt_ros2 navigation nodes and knowledge stores

Shallow embedding of the carebt_ros2 repository sources:
* `carebt_nav2/navigation_nodes.py` — navigation action nodes, poll workers,
  rate-controlled replanning loops and parallel approach nodes;
* `carebt_ros2/plugins/kb_tinydb.py` — the knowledge-store query relay;
* `carebt_simple_kb/simple_kb.py` — the simple JSON key/value store.

Pure functions of the Python code become Lean functions; the stateful
callbacks become explicit state-transformers; the background poll worker is
a small labelled transition system whose interleavings with the timeout
handler are explicit step lists.  Fallible Python code returns `Except`.
-/

/-- Modelled from the spec: the node lifecycle status set of the carebt core
engine (the `carebt` package itself is not part of this repository).  §3:
enum of RUNNING, SUSPENDED, SUCCESS, FAILURE; RUNNING/SUSPENDED are
non-terminal, SUCCESS/FAILURE terminal. -/
inductive NodeStatus
  | running
  | suspended
  | success
  | failure
deriving DecidableEq, Repr

/-- Modelled from the spec: terminal statuses per §3. -/
def NodeStatus.isTerminal : NodeStatus → Bool
  | .success => true
  | .failure => true
  | _ => false

/-- The `action_msgs/GoalStatus` codes used by the result callbacks
(external ROS message definition; the source compares against
`STATUS_SUCCEEDED` and `STATUS_ABORTED`). -/
inductive GoalStatus
  | unknown
  | accepted
  | executing
  | canceling
  | succeeded
  | canceled
  | aborted
deriving DecidableEq, Repr

/-- A planned path (`nav_msgs/Path`): modelled by its list of poses, each a
pair of coordinates; only equality of whole paths matters to the code. -/
structure NavPath where
  poses : List (Int × Int)
deriving DecidableEq, Repr

/-- A `FollowPath.Goal` message: holds the path to follow. -/
structure FollowPathGoal where
  path : NavPath
deriving DecidableEq, Repr

/-- The node-local state touched by a planner result callback: the carebt
node status, the contingency message, and the `_path` output slot. -/
structure PlannerNodeState where
  status : NodeStatus
  contingency : Option String
  path : Option NavPath
deriving DecidableEq, Repr

/-- The result message delivered to a planner result callback: the external
goal status and the planned path of the result. -/
structure PlannerResult where
  status : GoalStatus
  resultPath : NavPath
deriving DecidableEq, Repr

/-- Embedding of `ComputePathToPoseAction.result_callback` (navigation_nodes.py lines
238-247): on `STATUS_SUCCEEDED` store the result path in `_path` and set
status SUCCESS; on `STATUS_ABORTED` do nothing (`pass`); any other status
falls through the if/elif and also writes nothing. -/
def ComputePathToPoseAction.result_callback
    (st : PlannerNodeState) (res : PlannerResult) : PlannerNodeState :=
  match res.status with
  | .succeeded => { st with path := some res.resultPath, status := .success }
  | .aborted => st
  | _ => st

/-- Embedding of `ComputePathThroughPosesAction.result_callback` (navigation_nodes.py
lines 283-292): textually the same branch structure as
`ComputePathToPoseAction.result_callback`. -/
def ComputePathThroughPosesAction.result_callback
    (st : PlannerNodeState) (res : PlannerResult) : PlannerNodeState :=
  match res.status with
  | .succeeded => { st with path := some res.resultPath, status := .success }
  | .aborted => st
  | _ => st

/-- The node-local state touched by the follower result callback: status and
contingency message (FollowPathAction has no `_path` output slot). -/
structure FollowerNodeState where
  status : NodeStatus
  contingency : Option String
deriving DecidableEq, Repr

/-- Embedding of `FollowPathAction.result_callback` (navigation_nodes.py lines 452-468):
on `STATUS_SUCCEEDED` log and set status SUCCESS; on `STATUS_ABORTED` log
only (the TODO comment notes the ambiguity) — no state write; other
statuses fall through. -/
def FollowPathAction.result_callback
    (st : FollowerNodeState) (status : GoalStatus) : FollowerNodeState :=
  match status with
  | .succeeded => { st with status := .success }
  | .aborted => st
  | _ => st

/-- The node-local state touched by a poll-worker node's timeout handler:
status, contingency message, and the private `__thread_running` flag. -/
structure PollNodeState where
  status : NodeStatus
  contingency : Option String
  threadRunning : Bool
deriving DecidableEq, Repr

/-- Embedding of `WaitForLocalizationTF.on_timeout` (navigation_nodes.py lines 114-117):
clear `__thread_running`, set status FAILURE, set contingency message
NOT_LOCALIZED. -/
def WaitForLocalizationTF.on_timeout (st : PollNodeState) : PollNodeState :=
  { st with threadRunning := false,
            status := .failure,
            contingency := some "NOT_LOCALIZED" }

/-- Embedding of `GetCurrentPose.on_timeout` (navigation_nodes.py lines 161-164): clear
`__thread_running`, set status FAILURE, set contingency message
CURRENT_POSE_NOT_AVAILABLE. -/
def GetCurrentPose.on_timeout (st : PollNodeState) : PollNodeState :=
  { st with threadRunning := false,
            status := .failure,
            contingency := some "CURRENT_POSE_NOT_AVAILABLE" }

/-- Embedding of `FollowPathAction.on_tick` (navigation_nodes.py lines 438-446).  The
tick first sets `_goal_msg = None`; if `_path` is not None and differs from
`_current_path`, it builds a `FollowPath.Goal` carrying the path and
records the path as `_current_path`.  Returns the produced goal message and
the new `_current_path`. -/
def FollowPathAction.on_tick (path currentPath : Option NavPath) :
    Option FollowPathGoal × Option NavPath :=
  match path with
  | none => (none, currentPath)
  | some p =>
      if currentPath ≠ some p then
        (some ⟨p⟩, some p)
      else
        (none, currentPath)

/-! ## The background poll worker as a labelled transition system

The bodies of `WaitForLocalizationTF.__worker` (navigation_nodes.py lines
89-112) and `GetCurrentPose.__worker` (lines 145-159) have the same shape:
a loop that first checks the `__thread_running` flag (breaking without any
status write when it is cleared), then performs the blocking lookup, and on
a successful lookup writes SUCCESS and breaks, otherwise sleeps and loops.
The flag check and the lookup/write are separate program points, so the
timeout handler running on the tick-loop thread can interleave between
them.  Each loop iteration is split into its two program points; the
lookup's outcome (transform available and within tolerance, or not) is the
label of the poll step. -/

/-- Program counter of the worker thread: at the top-of-loop flag check, at
the lookup/write body, or exited (after `break`). -/
inductive WorkerPc
  | checkFlag
  | poll
  | exited
deriving DecidableEq, Repr

/-- Combined state of the owning node and its worker thread, plus whether
the timeout has already fired. -/
structure PollSystem where
  node : PollNodeState
  workerPc : WorkerPc
  timeoutFired : Bool
deriving DecidableEq, Repr

/-- One interleaving step: the worker's flag check, the worker's lookup
(labelled with whether the polled condition held), or the firing of the
owning node's timeout handler on the tick-loop thread. -/
inductive PollStep
  | workerCheck
  | workerPoll (found : Bool)
  | timeout
deriving DecidableEq, Repr

/-- Whether a step is executed by the worker thread. -/
def PollStep.isWorker : PollStep → Bool
  | .workerCheck => true
  | .workerPoll _ => true
  | .timeout => false

/-- Small-step semantics of the worker/timeout interleaving, parametrised
by the owning node's timeout handler.  `workerCheck` embeds lines 90-92
(and 146-148): `if(not self.__thread_running): break`.  `workerPoll found`
embeds the loop body (lines 93-112, 149-159): on a successful lookup the
worker writes SUCCESS with no further flag check and breaks; otherwise it
sleeps and returns to the flag check.  `timeout` fires the node's
`on_timeout` once. -/
def pollStepRun (onTimeoutFn : PollNodeState → PollNodeState)
    (s : PollSystem) : PollStep → PollSystem
  | .workerCheck =>
      match s.workerPc with
      | .checkFlag =>
          if s.node.threadRunning then { s with workerPc := .poll }
          else { s with workerPc := .exited }
      | _ => s
  | .workerPoll found =>
      match s.workerPc with
      | .poll =>
          if found then
            { s with node := { s.node with status := .success },
                     workerPc := .exited }
          else { s with workerPc := .checkFlag }
      | _ => s
  | .timeout =>
      if s.timeoutFired then s
      else { s with node := onTimeoutFn s.node, timeoutFired := true }

/-- Run a list of interleaving steps. -/
def pollRun (onTimeoutFn : PollNodeState → PollNodeState)
    (s : PollSystem) (steps : List PollStep) : PollSystem :=
  steps.foldl (pollStepRun onTimeoutFn) s

/-- The state right after `on_init` (navigation_nodes.py lines 83-87,
139-143): status SUSPENDED, `__thread_running = True`, worker thread
started at the top of its loop, timeout not yet fired. -/
def pollInit : PollSystem :=
  { node := { status := .suspended, contingency := none, threadRunning := true },
    workerPc := .checkFlag,
    timeoutFired := false }

/-! ## Contingency handlers and the rate-controlled replanning loops -/

/-- The node classes of navigation_nodes.py that occur as children of
composites, used as the child-type key of contingency registrations. -/
inductive ChildType
  | computePathToPoseAction
  | computePathThroughPosesAction
  | followPathAction
  | createFollowPathFeedback
  | computePathToPoseActionRateLoop
  | computePathThroughPosesActionRateLoop
deriving DecidableEq, Repr

/-- The effect of a registered handler procedure.  Both
`handle_path_ok` methods (navigation_nodes.py lines 329-330 and 368-369)
call `set_current_child_status(NodeStatus.RUNNING)`. -/
inductive HandlerAction
  | setCurrentChildStatus (st : NodeStatus)
deriving DecidableEq, Repr

/-- A contingency-handler registration: (child type, trigger statuses,
message pattern, handler), as passed to `register_contingency_handler`. -/
structure ContingencyHandlerEntry where
  childType : ChildType
  triggerStatuses : List NodeStatus
  pattern : String
  handler : HandlerAction
deriving DecidableEq, Repr

/-- The registration made in `ComputePathToPoseActionRateLoop.__init__`
(navigation_nodes.py lines 324-327): child `ComputePathToPoseAction`,
trigger statuses `[NodeStatus.SUCCESS]`, pattern matching any message, and
`handle_path_ok`, which sets the current child status to RUNNING. -/
def ComputePathToPoseActionRateLoop.contingencyHandlers :
    List ContingencyHandlerEntry :=
  [{ childType := .computePathToPoseAction,
     triggerStatuses := [.success],
     pattern := ".*",
     handler := .setCurrentChildStatus .running }]

/-- The registration made in `ComputePathThroughPosesActionRateLoop.__init__`
(navigation_nodes.py lines 363-366): same shape for
`ComputePathThroughPosesAction`. -/
def ComputePathThroughPosesActionRateLoop.contingencyHandlers :
    List ContingencyHandlerEntry :=
  [{ childType := .computePathThroughPosesAction,
     triggerStatuses := [.success],
     pattern := ".*",
     handler := .setCurrentChildStatus .running }]

/-- Modelled from the spec: the message-pattern match of §4.4 (the regex
engine is external; the only pattern registered in this repository is the
match-anything pattern).  The match-anything pattern accepts every message
including an absent one; any other pattern is matched as the literal
message text. -/
def patternMatches (p : String) (msg : Option String) : Bool :=
  if p = ".*" then true else msg = some p

/-- Modelled from the spec: contingency dispatch per §4.4 of the carebt
core engine (not under src).  When a child of type `ct` reaches status
`st` with contingency message `msg`, entries for that child type whose
trigger set contains `st` and whose pattern matches `msg` are searched in
registration order; the first match's handler may rewrite the child's
status; no match leaves the status as reported. -/
def dispatchContingency (regs : List ContingencyHandlerEntry)
    (ct : ChildType) (st : NodeStatus) (msg : Option String) : NodeStatus :=
  match regs.find? (fun e =>
      e.childType == ct && e.triggerStatuses.contains st
        && patternMatches e.pattern msg) with
  | some e =>
      match e.handler with
      | .setCurrentChildStatus s2 => s2
  | none => st

/-- Modelled from the spec: what a rate-controlled retry wrapper reports to
its own parent for one child activation, per §4.5 of the carebt core
engine (not under src).  The child runs to status `cs` with message `msg`;
contingency dispatch may rewrite it; the wrapper propagates a terminal
rewritten status as-is and otherwise reports RUNNING. -/
def rateControlReport (regs : List ContingencyHandlerEntry) (ct : ChildType)
    (cs : NodeStatus) (msg : Option String) : NodeStatus :=
  let cs2 := dispatchContingency regs ct cs msg
  if cs2.isTerminal then cs2 else .running

/-! ## The parallel approach composites -/

/-- The success threshold passed by `ApproachPose.__init__`
(navigation_nodes.py line 492): `super().__init__(bt_runner, 1, ...)`. -/
def ApproachPose.successThreshold : Nat := 1

/-- The children added by `ApproachPose.on_init` (navigation_nodes.py
lines 495-498), in `add_child` order, with their binding strings. -/
def ApproachPose.children : List (ChildType × String) :=
  [(.computePathToPoseActionRateLoop, "None ?goal => ?path"),
   (.followPathAction, "?path"),
   (.createFollowPathFeedback, "?path => ?feedback")]

/-- The success threshold passed by `ApproachPoseThroughPoses.__init__`
(navigation_nodes.py line 522). -/
def ApproachPoseThroughPoses.successThreshold : Nat := 1

/-- The children added by `ApproachPoseThroughPoses.on_init`
(navigation_nodes.py lines 525-528), in `add_child` order. -/
def ApproachPoseThroughPoses.children : List (ChildType × String) :=
  [(.computePathThroughPosesActionRateLoop, "None ?goals => ?path"),
   (.followPathAction, "?path"),
   (.createFollowPathFeedback, "?path => ?feedback")]

/-- Carebt binding strings list input slots, then `=>`, then output slots,
separated by blanks.  Splits a binding string into (inputs, outputs). -/
def parseBinding (s : String) : List String × List String :=
  let tokens := ((s.toList.splitOn ' ').filter (· ≠ [])).map
    (fun cs => String.mk cs)
  (tokens.takeWhile (· ≠ "=>"), (tokens.dropWhile (· ≠ "=>")).drop 1)

/-- Modelled from the spec: aggregation of the parallel composition node
per §4.6 of the carebt core engine (not under src) — the node's own status
becomes SUCCESS once the threshold count of successful children is
reached. -/
def parallelSucceeds (threshold : Nat) (childStatuses : List NodeStatus) : Bool :=
  threshold ≤ childStatuses.count .success

/-! ## The knowledge-store query relay (kb_tinydb.py) -/

/-- The Python exception classes relevant to the try/except clauses of this
repository. -/
inductive PyError
  | attributeError
  | runtimeError
  | syntaxError
  | nameError
  | typeError
  | keyError
deriving DecidableEq, Repr

/-- The class name of a Python exception, as rendered into the diagnostic
result string by `str(sys.exc_info()[0])` (up to the surrounding class
decoration, which carries no information). -/
def PyError.className : PyError → String
  | .attributeError => "AttributeError"
  | .runtimeError => "RuntimeError"
  | .syntaxError => "SyntaxError"
  | .nameError => "NameError"
  | .typeError => "TypeError"
  | .keyError => "KeyError"

/-- The `carebt_msgs/TellAsk` response: a success flag and a result
string. -/
structure TellAskResponse where
  success : Bool
  result : String
deriving DecidableEq, Repr

/-- Embedding of `Kb.query_callback` (kb_tinydb.py lines 34-44).  The
evaluation of the request string — `exec` of the request applied to the
tinydb object — is external; it is passed in as its outcome: either the
produced result string or the Python exception it raises (for example, a
malformed request raises SyntaxError, an unknown name NameError, a wrong
argument TypeError).  The except clause catches exactly `AttributeError`
and `RuntimeError`, answering success=False with the diagnostic string;
any other exception propagates out of the callback. -/
def Kb.query_callback (evalOutcome : Except PyError String) :
    Except PyError TellAskResponse :=
  match evalOutcome with
  | .ok s => .ok { success := true, result := s }
  | .error e =>
      if e = .attributeError ∨ e = .runtimeError then
        .ok { success := false, result := e.className }
      else
        .error e

/-! ## The simple JSON knowledge store (simple_kb.py)

A JSON document dict is an association list preserving insertion order;
Python dict keys are unique, which holds for every dict the code itself
builds. -/

/-- A JSON scalar value stored in an entry. -/
inductive JVal
  | str (s : String)
  | num (n : Int)
  | boolean (b : Bool)
  | null
deriving DecidableEq, Repr

/-- One knowledge-base entry: a JSON object, keys to values. -/
abbrev KbEntry : Type := List (String × JVal)

/-- The store itself: uuid keys to entries, in insertion order. -/
abbrev KbDict : Type := List (String × KbEntry)

/-- Python `e[k]` / `k in e` on an entry: the value at key `k`, if
present. -/
def entryLookup (e : KbEntry) (k : String) : Option JVal :=
  (e.find? (fun kv => kv.1 == k)).map (·.2)

/-- Python dict lookup on the store. -/
def kbLookup (kb : KbDict) (uuid : String) : Option KbEntry :=
  (kb.find? (fun ue => ue.1 == uuid)).map (·.2)

/-- The dict comprehension of `SimpleKb.__get_uuids` (simple_kb.py line
43): the filter items whose key is present in the entry with an equal
value. -/
def matchPairs (filt e : KbEntry) : KbEntry :=
  filt.filter (fun kv => entryLookup e kv.1 == some kv.2)

/-- Line 45 of simple_kb.py: the entry matches when all filter keys
match. -/
def entryMatches (filt e : KbEntry) : Bool :=
  (matchPairs filt e).length == filt.length

/-- Embedding of `SimpleKb.__get_uuids` (simple_kb.py lines 40-47): the
uuids of the stored entries matched by the filter, in store order. -/
def SimpleKb.get_uuids (kb : KbDict) (filt : KbEntry) : List String :=
  (kb.filter (fun ue => entryMatches filt ue.2)).map (·.1)

/-- Python dict assignment `e[k] = v`: replace the value at an existing
key in place, else append the new key. -/
def entrySet : KbEntry → String → JVal → KbEntry
  | [], k, v => [(k, v)]
  | kv :: rest, k, v =>
      if kv.1 = k then (k, v) :: rest else kv :: entrySet rest k v

/-- The inner loop of `SimpleKb.update` (simple_kb.py lines 66-67):
`for key in update: entry[key] = update[key]`. -/
def applyUpdate (e upd : KbEntry) : KbEntry :=
  upd.foldl (fun acc kv => entrySet acc kv.1 kv.2) e

/-- State of a SimpleKb object: the in-memory dict, the last contents
written to the backing file (none when never written), and the
`sync_to_file` construction flag. -/
structure SimpleKbState where
  kbDict : KbDict
  file : Option KbDict
  syncToFile : Bool
deriving DecidableEq, Repr

/-- Embedding of `SimpleKb.__save` (simple_kb.py lines 36-38): dump the
dict to the backing file when asked to. -/
def SimpleKb.saveAux (s : SimpleKbState) (syncToFile : Bool) : SimpleKbState :=
  if syncToFile then { s with file := some s.kbDict } else s

/-- Embedding of `SimpleKb.update` (simple_kb.py lines 62-70): an upsert.
When some entries match the filter, each of them gets the update's keys
assigned; otherwise the update mapping is inserted under a fresh uuid
(`str(uuid4())`, supplied here as `freshUuid`).  Then `__save` with the
construction flag. -/
def SimpleKb.update (s : SimpleKbState) (filt upd : KbEntry)
    (freshUuid : String) : SimpleKbState :=
  let uuids := SimpleKb.get_uuids s.kbDict filt
  let d2 :=
    if uuids.length > 0 then
      s.kbDict.map (fun ue =>
        if uuids.contains ue.1 then (ue.1, applyUpdate ue.2 upd) else ue)
    else
      s.kbDict ++ [(freshUuid, upd)]
  SimpleKb.saveAux { s with kbDict := d2 } s.syncToFile

/-- The parameter count of `SimpleKb.__get_uuids` besides `self`
(simple_kb.py line 40: `def __get_uuids(self, filter)`). -/
def SimpleKb.get_uuids_paramCount : Nat := 1

/-- A Python positional call to `__get_uuids`: the interpreter raises
TypeError before entering the body when the number of supplied arguments
differs from the method's parameter count. -/
def SimpleKb.call_get_uuids (kb : KbDict) (args : List KbEntry) :
    Except PyError (List String) :=
  if args.length = SimpleKb.get_uuids_paramCount then
    match args with
    | a :: _ => .ok (SimpleKb.get_uuids kb a)
    | [] => .error .typeError
  else .error .typeError

/-- Embedding of `SimpleKb.delete` (simple_kb.py lines 72-76):
`uuids = self.__get_uuids(keys, entry)` — a two-argument call to the
one-parameter helper — then deletion of each matched uuid and `__save`.
An error result means the raise happened with the store and file exactly
as the caller left them. -/
def SimpleKb.delete (s : SimpleKbState) (keys entry : KbEntry) :
    Except PyError SimpleKbState := do
  let uuids ← SimpleKb.call_get_uuids s.kbDict [keys, entry]
  let d2 := s.kbDict.filter (fun ue => !(uuids.contains ue.1))
  pure (SimpleKb.saveAux { s with kbDict := d2 } s.syncToFile)

/-- The attribute names class SimpleKb defines on its instances
(simple_kb.py): the private fields bound in `__init__` and the methods of
the class body.  There is no `get_logger`. -/
def SimpleKb.attributes : List String :=
  ["_SimpleKb__filename", "_SimpleKb__sync_to_file", "_SimpleKb__kb_dict",
   "_SimpleKb__save", "_SimpleKb__get_uuids",
   "create", "read", "update", "delete", "show", "size_in_kb", "count",
   "save"]

/-- Python attribute lookup on a SimpleKb instance: AttributeError when the
name is not defined by the class. -/
def SimpleKb.getattr (name : String) : Except PyError Unit :=
  if SimpleKb.attributes.contains name then .ok () else .error .attributeError

/-- Embedding of `SimpleKb.save` (simple_kb.py lines 88-91): first
`self.__save(True)` writes the backing file unconditionally; then the
logging line evaluates `self.get_logger`, which the class does not define,
raising AttributeError before anything else happens.  Returns the state
after the file write together with the outcome. -/
def SimpleKb.save (s : SimpleKbState) : SimpleKbState × Except PyError Unit :=
  let s2 := SimpleKb.saveAux s true
  match SimpleKb.getattr "get_logger" with
  | .ok _ => (s2, .ok ())
  | .error e => (s2, .error e)

/-! ## Helper lemmas -/

/-- Lookup on a cons cell of an entry. -/
theorem entryLookup_cons (kv : String × JVal) (l : KbEntry) (k : String) :
    entryLookup (kv :: l) k = if kv.1 = k then some kv.2 else entryLookup l k := by
  by_cases h : kv.1 = k
  · simp [entryLookup, List.find?_cons_of_pos, h]
  · simp [entryLookup, List.find?_cons_of_neg, h]

/-- Lookup on a cons cell of the store. -/
theorem kbLookup_cons (ue : String × KbEntry) (l : KbDict) (u : String) :
    kbLookup (ue :: l) u = if ue.1 = u then some ue.2 else kbLookup l u := by
  by_cases h : ue.1 = u
  · simp [kbLookup, List.find?_cons_of_pos, h]
  · simp [kbLookup, List.find?_cons_of_neg, h]

/-- Assigning a key makes it present with the assigned value. -/
theorem entryLookup_entrySet_self (e : KbEntry) (k : String) (v : JVal) :
    entryLookup (entrySet e k v) k = some v := by
  induction e with
  | nil => simp [entrySet, entryLookup, List.find?]
  | cons kv rest ih =>
      by_cases h : kv.1 = k
      · simp [entrySet, h, entryLookup_cons]
      · simp [entrySet, h, entryLookup_cons, ih]

/-- Assigning one key leaves the others unchanged. -/
theorem entryLookup_entrySet_ne (e : KbEntry) (k0 k : String) (v0 : JVal)
    (h : k0 ≠ k) :
    entryLookup (entrySet e k0 v0) k = entryLookup e k := by
  induction e with
  | nil => simp [entrySet, entryLookup_cons, h]
  | cons kv rest ih =>
      by_cases hk : kv.1 = k0
      · simp [entrySet, hk, entryLookup_cons, h, ih]
      · simp [entrySet, hk, entryLookup_cons, ih]

/-- Applying an update not containing a key leaves that key unchanged. -/
theorem entryLookup_applyUpdate_not_mem (upd : KbEntry) (e : KbEntry)
    (k : String) (h : k ∉ upd.map Prod.fst) :
    entryLookup (applyUpdate e upd) k = entryLookup e k := by
  induction upd generalizing e with
  | nil => rfl
  | cons kv rest ih =>
      simp only [List.map_cons, List.mem_cons, not_or] at h
      have h2 : applyUpdate e (kv :: rest)
          = applyUpdate (entrySet e kv.1 kv.2) rest := rfl
      rw [h2, ih _ h.2, entryLookup_entrySet_ne _ _ _ _ (fun hh => h.1 hh.symm)]

/-- After applying an update with pairwise distinct keys, every updated key
holds its update value. -/
theorem entryLookup_applyUpdate_mem (upd : KbEntry) (e : KbEntry)
    (hnodup : (upd.map Prod.fst).Nodup) (kv : String × JVal) (hm : kv ∈ upd) :
    entryLookup (applyUpdate e upd) kv.1 = some kv.2 := by
  induction upd generalizing e with
  | nil => cases hm
  | cons kv0 rest ih =>
      simp only [List.map_cons, List.nodup_cons] at hnodup
      have h2 : applyUpdate e (kv0 :: rest)
          = applyUpdate (entrySet e kv0.1 kv0.2) rest := rfl
      rcases List.mem_cons.mp hm with heq | hmem
      · subst heq
        rw [h2, entryLookup_applyUpdate_not_mem _ _ _ hnodup.1,
          entryLookup_entrySet_self]
      · rw [h2]
        exact ih _ hnodup.2 hmem

/-- Store lookup commutes with the key-preserving update map of
SimpleKb.update. -/
theorem kbLookup_map_update (kb : KbDict) (uuids : List String)
    (upd : KbEntry) (uuid : String) :
    kbLookup (kb.map (fun ue =>
        if uuids.contains ue.1 then (ue.1, applyUpdate ue.2 upd) else ue)) uuid
      = (kbLookup kb uuid).map
          (fun e => if uuids.contains uuid then applyUpdate e upd else e) := by
  induction kb with
  | nil => simp [kbLookup, List.find?]
  | cons ue rest ih =>
      obtain ⟨k, e⟩ := ue
      by_cases hk : k = uuid
      · subst hk
        by_cases hc : k ∈ uuids <;> simp [kbLookup_cons, hc, ih]
      · simp at ih
        by_cases hc : k ∈ uuids <;> simp [kbLookup_cons, hk, hc, ih]

/-- Unfolding of the matched uuids on a cons cell of the store. -/
theorem get_uuids_cons (ue : String × KbEntry) (rest : KbDict) (filt : KbEntry) :
    SimpleKb.get_uuids (ue :: rest) filt
      = if entryMatches filt ue.2 then ue.1 :: SimpleKb.get_uuids rest filt
        else SimpleKb.get_uuids rest filt := by
  simp only [SimpleKb.get_uuids, List.filter_cons]
  split <;> simp

/-- A matched uuid is a key of the store. -/
theorem mem_get_uuids_lookup_isSome (kb : KbDict) (filt : KbEntry)
    (uuid : String) (h : uuid ∈ SimpleKb.get_uuids kb filt) :
    ∃ e, kbLookup kb uuid = some e := by
  induction kb with
  | nil => simp [SimpleKb.get_uuids] at h
  | cons ue rest ih =>
      by_cases hk : ue.1 = uuid
      · exact ⟨ue.2, by simp [kbLookup_cons, hk]⟩
      · rw [get_uuids_cons] at h
        rw [kbLookup_cons, if_neg hk]
        apply ih
        by_cases hm : entryMatches filt ue.2
        · rw [if_pos hm] at h
          rcases List.mem_cons.mp h with h1 | h2
          · exact absurd h1.symm hk
          · exact h2
        · rwa [if_neg hm] at h

/-- The file sync never touches the in-memory dict. -/
theorem saveAux_kbDict (s : SimpleKbState) (b : Bool) :
    (SimpleKb.saveAux s b).kbDict = s.kbDict := by
  unfold SimpleKb.saveAux
  split <;> rfl

/-- The dict produced by SimpleKb.update, by branch. -/
theorem update_kbDict (s : SimpleKbState) (filt upd : KbEntry) (u : String) :
    (SimpleKb.update s filt upd u).kbDict
      = if (SimpleKb.get_uuids s.kbDict filt).length > 0 then
          s.kbDict.map (fun ue =>
            if (SimpleKb.get_uuids s.kbDict filt).contains ue.1
            then (ue.1, applyUpdate ue.2 upd) else ue)
        else s.kbDict ++ [(u, upd)] := by
  unfold SimpleKb.update
  rw [saveAux_kbDict]

/-- Worker-only steps preserve the node state once the worker is past its
flag check observing a cleared flag, or has exited. -/
theorem pollStep_worker_preserve (f : PollNodeState → PollNodeState)
    (s : PollSystem) (x : PollStep) (hx : x.isWorker = true)
    (hs : s.workerPc = .exited
      ∨ (s.workerPc = .checkFlag ∧ s.node.threadRunning = false)) :
    (pollStepRun f s x).node = s.node
    ∧ ((pollStepRun f s x).workerPc = .exited
       ∨ ((pollStepRun f s x).workerPc = .checkFlag
          ∧ (pollStepRun f s x).node.threadRunning = false)) := by
  cases x with
  | workerCheck =>
      rcases hs with h | ⟨h1, h2⟩
      · simp [pollStepRun, h]
      · simp [pollStepRun, h1, h2]
  | workerPoll found =>
      rcases hs with h | ⟨h1, h2⟩
      · simp [pollStepRun, h]
      · simp [pollStepRun, h1, h2]
  | timeout => simp [PollStep.isWorker] at hx

/-- Runs of worker-only steps preserve the node state from any state where
the worker has observed the cleared flag or exited. -/
theorem pollRun_worker_preserve (f : PollNodeState → PollNodeState)
    (steps : List PollStep) : ∀ s : PollSystem,
    (∀ x ∈ steps, x.isWorker = true) →
    (s.workerPc = .exited
      ∨ (s.workerPc = .checkFlag ∧ s.node.threadRunning = false)) →
    (pollRun f s steps).node = s.node := by
  induction steps with
  | nil =>
      intro s _ _
      rfl
  | cons x xs ih =>
      intro s hw hs
      have hx := hw x (List.mem_cons_self x xs)
      have h1 := pollStep_worker_preserve f s x hx hs
      have h2 := ih (pollStepRun f s x)
        (fun y hy => hw y (List.mem_cons_of_mem x hy)) h1.2
      calc (pollRun f s (x :: xs)).node
          = (pollRun f (pollStepRun f s x) xs).node := rfl
        _ = (pollStepRun f s x).node := h2
        _ = s.node := h1.1

/-! ## Claim theorems -/

/-- C1: for every action-result callback of the planner and path-follower
nodes, external status SUCCEEDED sets the node's status to SUCCESS (and,
for the planner nodes, sets the path output slot to the result's path);
external status ABORTED writes nothing — status, contingency message and
path output are left exactly as they were, so a SUSPENDED node stays
SUSPENDED. -/
theorem result_callbacks_succeeded_aborted
    (st st2 : PlannerNodeState) (fs : FollowerNodeState) (p p2 : NavPath) :
    (ComputePathToPoseAction.result_callback st ⟨.succeeded, p⟩
       = { st with path := some p, status := .success })
    ∧ ComputePathToPoseAction.result_callback st ⟨.aborted, p⟩ = st
    ∧ (ComputePathThroughPosesAction.result_callback st2 ⟨.succeeded, p2⟩
       = { st2 with path := some p2, status := .success })
    ∧ ComputePathThroughPosesAction.result_callback st2 ⟨.aborted, p2⟩ = st2
    ∧ (FollowPathAction.result_callback fs .succeeded
       = { fs with status := .success })
    ∧ FollowPathAction.result_callback fs .aborted = fs :=
  ⟨rfl, rfl, rfl, rfl, rfl, rfl⟩

/-- C2: for every poll-worker node, when the timeout fires while the node
is non-terminal, the timeout handler clears the worker's running flag,
sets the node's status to FAILURE, and sets the node's diagnostic
contingency message (NOT_LOCALIZED for WaitForLocalizationTF,
CURRENT_POSE_NOT_AVAILABLE for GetCurrentPose). -/
theorem poll_timeout_sets_failure
    (s1 s2 : PollNodeState)
    (h1 : s1.status.isTerminal = false) (h2 : s2.status.isTerminal = false) :
    ((WaitForLocalizationTF.on_timeout s1).threadRunning = false
      ∧ (WaitForLocalizationTF.on_timeout s1).status = .failure
      ∧ (WaitForLocalizationTF.on_timeout s1).contingency
          = some "NOT_LOCALIZED")
    ∧ ((GetCurrentPose.on_timeout s2).threadRunning = false
      ∧ (GetCurrentPose.on_timeout s2).status = .failure
      ∧ (GetCurrentPose.on_timeout s2).contingency
          = some "CURRENT_POSE_NOT_AVAILABLE") :=
  ⟨⟨rfl, rfl, rfl⟩, ⟨rfl, rfl, rfl⟩⟩

/-- Witness for C2 at the SUSPENDED state both nodes are in right after
on_init. -/
theorem poll_timeout_sets_failure_witness :
    NodeStatus.isTerminal .suspended = false
    ∧ ((WaitForLocalizationTF.on_timeout ⟨.suspended, none, true⟩).threadRunning
          = false
      ∧ (WaitForLocalizationTF.on_timeout ⟨.suspended, none, true⟩).status
          = .failure
      ∧ (WaitForLocalizationTF.on_timeout ⟨.suspended, none, true⟩).contingency
          = some "NOT_LOCALIZED")
    ∧ ((GetCurrentPose.on_timeout ⟨.suspended, none, true⟩).threadRunning
          = false
      ∧ (GetCurrentPose.on_timeout ⟨.suspended, none, true⟩).status = .failure
      ∧ (GetCurrentPose.on_timeout ⟨.suspended, none, true⟩).contingency
          = some "CURRENT_POSE_NOT_AVAILABLE") :=
  ⟨rfl,
    (poll_timeout_sets_failure ⟨.suspended, none, true⟩ ⟨.suspended, none, true⟩
      rfl rfl).1,
    (poll_timeout_sets_failure ⟨.suspended, none, true⟩ ⟨.suspended, none, true⟩
      rfl rfl).2⟩

/-- C3 counterexample: an interleaving of the WaitForLocalizationTF worker
with the timeout handler in which the worker passes its flag check while
the flag is still set, the timeout then clears the flag and finalizes
FAILURE, and the worker's next step — the lookup body, which writes SUCCESS
without re-checking the flag — overwrites the timeout-finalized FAILURE
with a late SUCCESS.  This refutes the claim that after the timeout handler
has cleared the running flag the worker never subsequently writes
SUCCESS. -/
theorem poll_worker_late_success_counterexample :
    (pollRun WaitForLocalizationTF.on_timeout pollInit
        [.workerCheck, .timeout]).node.status = .failure
    ∧ (pollRun WaitForLocalizationTF.on_timeout pollInit
        [.workerCheck, .timeout]).node.threadRunning = false
    ∧ (pollRun WaitForLocalizationTF.on_timeout pollInit
        [.workerCheck, .timeout, .workerPoll true]).node.status = .success := by
  decide

/-- C3 amended: the worker checks the stop flag only at the top of each
loop iteration; once the worker OBSERVES the cleared flag at that check, it
exits without any further status write, so no worker-only continuation
changes the node state.  (The flag check and the success write are separate
program points, so a timeout clearing the flag between them can still be
overwritten — see the counterexample.) -/
theorem poll_worker_observed_stop_never_writes
    (f : PollNodeState → PollNodeState) (s : PollSystem)
    (steps : List PollStep)
    (hpc : s.workerPc = .checkFlag) (hrun : s.node.threadRunning = false)
    (hw : ∀ x ∈ steps, x.isWorker = true) :
    (pollRun f s steps).node = s.node :=
  pollRun_worker_preserve f steps s hw (Or.inr ⟨hpc, hrun⟩)

/-- Witness for C3 amended: from the state the timeout handler leaves
behind, with the worker back at its flag check, two further worker steps
change nothing. -/
theorem poll_worker_observed_stop_never_writes_witness :
    (PollSystem.mk ⟨.failure, some "NOT_LOCALIZED", false⟩ .checkFlag
        true).workerPc = .checkFlag
    ∧ (PollSystem.mk ⟨.failure, some "NOT_LOCALIZED", false⟩ .checkFlag
        true).node.threadRunning = false
    ∧ (∀ x ∈ ([.workerCheck, .workerPoll true] : List PollStep),
        x.isWorker = true)
    ∧ (pollRun WaitForLocalizationTF.on_timeout
        (PollSystem.mk ⟨.failure, some "NOT_LOCALIZED", false⟩ .checkFlag true)
        [.workerCheck, .workerPoll true]).node
      = ⟨.failure, some "NOT_LOCALIZED", false⟩ :=
  ⟨rfl, rfl, by decide,
    poll_worker_observed_stop_never_writes WaitForLocalizationTF.on_timeout
      (PollSystem.mk ⟨.failure, some "NOT_LOCALIZED", false⟩ .checkFlag true)
      [.workerCheck, .workerPoll true] rfl rfl (by decide)⟩

/-- C4: both rate-controlled retry wrappers register, at construction, one
contingency handler for their child type with trigger-status set
containing exactly SUCCESS and the match-anything pattern, whose handler
sets the child's status to RUNNING; dispatching a child SUCCESS through the
registry therefore yields RUNNING for any message, the wrapper reports
RUNNING to its parent, and for a child that always succeeds every tick's
report is RUNNING — never a terminal status. -/
theorem rate_loops_success_rewritten_to_running (msg : Option String) :
    ComputePathToPoseActionRateLoop.contingencyHandlers
      = [{ childType := .computePathToPoseAction,
           triggerStatuses := [.success],
           pattern := ".*",
           handler := .setCurrentChildStatus .running }]
    ∧ ComputePathThroughPosesActionRateLoop.contingencyHandlers
      = [{ childType := .computePathThroughPosesAction,
           triggerStatuses := [.success],
           pattern := ".*",
           handler := .setCurrentChildStatus .running }]
    ∧ dispatchContingency ComputePathToPoseActionRateLoop.contingencyHandlers
        .computePathToPoseAction .success msg = .running
    ∧ dispatchContingency
        ComputePathThroughPosesActionRateLoop.contingencyHandlers
        .computePathThroughPosesAction .success msg = .running
    ∧ rateControlReport ComputePathToPoseActionRateLoop.contingencyHandlers
        .computePathToPoseAction .success msg = .running
    ∧ rateControlReport
        ComputePathThroughPosesActionRateLoop.contingencyHandlers
        .computePathThroughPosesAction .success msg = .running
    ∧ (∀ msgs : List (Option String),
        (msgs.map (fun m =>
            rateControlReport ComputePathToPoseActionRateLoop.contingencyHandlers
              .computePathToPoseAction .success m)).all
          (fun r => r == .running) = true) := by
  refine ⟨rfl, rfl, ?_, ?_, ?_, ?_, ?_⟩
  · simp [dispatchContingency, ComputePathToPoseActionRateLoop.contingencyHandlers,
      patternMatches, List.find?]
  · simp [dispatchContingency,
      ComputePathThroughPosesActionRateLoop.contingencyHandlers,
      patternMatches, List.find?]
  · simp [rateControlReport, dispatchContingency,
      ComputePathToPoseActionRateLoop.contingencyHandlers,
      patternMatches, List.find?, NodeStatus.isTerminal]
  · simp [rateControlReport, dispatchContingency,
      ComputePathThroughPosesActionRateLoop.contingencyHandlers,
      patternMatches, List.find?, NodeStatus.isTerminal]
  · intro msgs
    simp [List.all_eq_true, rateControlReport, dispatchContingency,
      ComputePathToPoseActionRateLoop.contingencyHandlers,
      patternMatches, List.find?, NodeStatus.isTerminal]

/-- C5: on every tick of FollowPathAction, a goal message is produced iff
the path input is non-None and differs from the last path sent; when no
goal is produced the last-sent path is unchanged; and when one is produced
it carries the path, which also becomes the new last-sent path. -/
theorem follow_path_tick_issues_iff (path current : Option NavPath) :
    ((FollowPathAction.on_tick path current).1 ≠ none
      ↔ path ≠ none ∧ current ≠ path)
    ∧ ((FollowPathAction.on_tick path current).1 = none →
        (FollowPathAction.on_tick path current).2 = current)
    ∧ (∀ p, path = some p → current ≠ path →
        FollowPathAction.on_tick path current = (some ⟨p⟩, some p)) := by
  cases path with
  | none => simp [FollowPathAction.on_tick]
  | some p =>
      by_cases h : current = some p
      · subst h
        simp [FollowPathAction.on_tick]
      · simp [FollowPathAction.on_tick, h, Ne.symm]

/-- Witness for C5: with no path sent yet and a fresh path input, a goal
carrying that path is issued and recorded. -/
theorem follow_path_tick_issues_iff_witness :
    (some (NavPath.mk [(0, 0)]) = some (NavPath.mk [(0, 0)])
      ∧ (none : Option NavPath) ≠ some (NavPath.mk [(0, 0)]))
    ∧ FollowPathAction.on_tick (some (NavPath.mk [(0, 0)])) none
      = (some ⟨NavPath.mk [(0, 0)]⟩, some (NavPath.mk [(0, 0)])) :=
  ⟨⟨rfl, by decide⟩,
    (follow_path_tick_issues_iff (some (NavPath.mk [(0, 0)])) none).2.2
      (NavPath.mk [(0, 0)]) rfl (by decide)⟩

/-- C6: ApproachPose and ApproachPoseThroughPoses are constructed with
success threshold 1 and add exactly three children in order — the
replanning rate loop producing the path slot, the FollowPathAction
consuming it, and the CreateFollowPathFeedback consuming it — and under
the threshold aggregation the parallel node succeeds exactly when some
child reached SUCCESS. -/
theorem approach_parallel_structure :
    ApproachPose.successThreshold = 1
    ∧ ApproachPoseThroughPoses.successThreshold = 1
    ∧ ApproachPose.children
      = [(.computePathToPoseActionRateLoop, "None ?goal => ?path"),
         (.followPathAction, "?path"),
         (.createFollowPathFeedback, "?path => ?feedback")]
    ∧ ApproachPoseThroughPoses.children
      = [(.computePathThroughPosesActionRateLoop, "None ?goals => ?path"),
         (.followPathAction, "?path"),
         (.createFollowPathFeedback, "?path => ?feedback")]
    ∧ ApproachPose.children.map (fun c => parseBinding c.2)
      = [(["None", "?goal"], ["?path"]),
         (["?path"], []),
         (["?path"], ["?feedback"])]
    ∧ ApproachPoseThroughPoses.children.map (fun c => parseBinding c.2)
      = [(["None", "?goals"], ["?path"]),
         (["?path"], []),
         (["?path"], ["?feedback"])]
    ∧ (∀ sts : List NodeStatus,
        parallelSucceeds ApproachPose.successThreshold sts = true
          ↔ .success ∈ sts) := by
  refine ⟨rfl, rfl, rfl, rfl, rfl, rfl, ?_⟩
  intro sts
  simp [parallelSucceeds, ApproachPose.successThreshold]

/-- C7 counterexample: an evaluation outcome the except clause does not
catch — a SyntaxError, raised for example by the malformed request string
purge( — propagates out of Kb.query_callback instead of being turned into
a response, refuting the claim that every request string yields a
response. -/
theorem kb_query_callback_raises_counterexample :
    Kb.query_callback (Except.error PyError.syntaxError)
      = Except.error PyError.syntaxError := rfl

/-- C7 amended: for every request whose evaluation either succeeds or
raises AttributeError or RuntimeError, the callback returns a response —
success with the query result string, or failure with the diagnostic —
while an evaluation error of any other type propagates out of the
callback uncaught. -/
theorem kb_query_callback_amended (s : String) :
    Kb.query_callback (Except.ok s)
      = Except.ok { success := true, result := s }
    ∧ Kb.query_callback (Except.error .attributeError)
      = Except.ok { success := false, result := "AttributeError" }
    ∧ Kb.query_callback (Except.error .runtimeError)
      = Except.ok { success := false, result := "RuntimeError" }
    ∧ (∀ e : PyError, e ≠ .attributeError → e ≠ .runtimeError →
        Kb.query_callback (Except.error e) = Except.error e) := by
  refine ⟨rfl, rfl, rfl, ?_⟩
  intro e h1 h2
  cases e <;> simp_all [Kb.query_callback]

/-- Witness for C7 amended at a NameError outcome (an unknown name in the
request string). -/
theorem kb_query_callback_amended_witness :
    (PyError.nameError ≠ PyError.attributeError
      ∧ PyError.nameError ≠ PyError.runtimeError)
    ∧ Kb.query_callback (Except.error PyError.nameError)
      = Except.error PyError.nameError :=
  ⟨⟨by decide, by decide⟩,
    (kb_query_callback_amended "").2.2.2 PyError.nameError (by decide)
      (by decide)⟩

/-- C8: SimpleKb.delete invokes the one-parameter helper with two
arguments, so every call raises TypeError at its first statement; the
error result means the raise happened before any mutation, leaving the
store's entries and the backing file unchanged — no entry can ever be
deleted through the public interface. -/
theorem simple_kb_delete_always_type_error
    (s : SimpleKbState) (keys entry : KbEntry) :
    SimpleKb.delete s keys entry = Except.error PyError.typeError := rfl

/-- C9: SimpleKb.update is an upsert.  When some stored entry matches the
filter, every matched uuid still resolves to an entry, that entry has each
update key set to its update value, and the entry count is unchanged; when
no entry matches, the update mapping itself is appended under the fresh
uuid and the entry count grows by exactly one.  (Update keys are pairwise
distinct, as Python dict keys are.) -/
theorem simple_kb_update_upsert (s : SimpleKbState) (filt upd : KbEntry)
    (u : String) (hnodup : (upd.map Prod.fst).Nodup) :
    (SimpleKb.get_uuids s.kbDict filt ≠ [] →
       (SimpleKb.update s filt upd u).kbDict.length = s.kbDict.length
       ∧ ∀ uuid ∈ SimpleKb.get_uuids s.kbDict filt,
           (∃ e, kbLookup (SimpleKb.update s filt upd u).kbDict uuid = some e)
           ∧ ∀ e, kbLookup (SimpleKb.update s filt upd u).kbDict uuid = some e →
               ∀ kv ∈ upd, entryLookup e kv.1 = some kv.2)
    ∧ (SimpleKb.get_uuids s.kbDict filt = [] →
       (SimpleKb.update s filt upd u).kbDict = s.kbDict ++ [(u, upd)]
       ∧ (SimpleKb.update s filt upd u).kbDict.length
           = s.kbDict.length + 1) := by
  constructor
  · intro hne
    have hlen : (SimpleKb.get_uuids s.kbDict filt).length > 0 :=
      List.length_pos.mpr hne
    rw [update_kbDict, if_pos hlen]
    refine ⟨List.length_map _ _, ?_⟩
    intro uuid hmem
    have hc : (SimpleKb.get_uuids s.kbDict filt).contains uuid = true := by
      simp [hmem]
    constructor
    · obtain ⟨e0, he0⟩ := mem_get_uuids_lookup_isSome s.kbDict filt uuid hmem
      refine ⟨applyUpdate e0 upd, ?_⟩
      rw [kbLookup_map_update, he0]
      simp [hmem]
    · intro e he kv hkv
      rw [kbLookup_map_update] at he
      obtain ⟨e0, he0, heq⟩ := Option.map_eq_some'.mp he
      rw [if_pos hc] at heq
      exact heq ▸ entryLookup_applyUpdate_mem upd e0 hnodup kv hkv
  · intro heq
    rw [update_kbDict, if_neg (by simp [heq])]
    exact ⟨rfl, by simp⟩

/-- Witness for C9: a one-entry store whose entry matches the filter; the
update adds a key, the count stays 1; and a store where nothing matches,
where the update mapping is appended. -/
theorem simple_kb_update_upsert_witness :
    ((([("b", JVal.num 2)] : KbEntry).map Prod.fst).Nodup
      ∧ SimpleKb.get_uuids [("u1", [("a", JVal.num 1)])] [("a", JVal.num 1)]
          ≠ []
      ∧ SimpleKb.get_uuids [("u1", [("a", JVal.num 1)])] [("a", JVal.num 7)]
          = [])
    ∧ (SimpleKb.update ⟨[("u1", [("a", JVal.num 1)])], none, false⟩
        [("a", JVal.num 1)] [("b", JVal.num 2)] "u2").kbDict.length = 1
    ∧ (SimpleKb.update ⟨[("u1", [("a", JVal.num 1)])], none, false⟩
        [("a", JVal.num 7)] [("b", JVal.num 2)] "u2").kbDict
      = [("u1", [("a", JVal.num 1)]), ("u2", [("b", JVal.num 2)])] := by
  refine ⟨⟨by decide, by decide, by decide⟩, ?_, ?_⟩
  · have h := (simple_kb_update_upsert
      ⟨[("u1", [("a", JVal.num 1)])], none, false⟩
      [("a", JVal.num 1)] [("b", JVal.num 2)] "u2" (by decide)).1 (by decide)
    simpa using h.1
  · have h := (simple_kb_update_upsert
      ⟨[("u1", [("a", JVal.num 1)])], none, false⟩
      [("a", JVal.num 7)] [("b", JVal.num 2)] "u2" (by decide)).2 (by decide)
    simpa using h.1

/-- C10: for every state of the store, SimpleKb.save first writes the
current contents to the backing file and then raises AttributeError (the
class defines no get_logger), so save never returns normally even though
the file is updated. -/
theorem simple_kb_save_writes_then_raises (s : SimpleKbState) :
    (SimpleKb.save s).1.file = some s.kbDict
    ∧ (SimpleKb.save s).2 = Except.error PyError.attributeError :=
  ⟨rfl, rfl⟩
